import Mathlib

/-!
Verification development for the attendance backend.

The definitions below are a shallow embedding of the Python sources:
  app/backend/db/redis_client.py      (ephemeral store client)
  app/backend/db/db_client.py         (durable store client)
  app/backend/tasks/cron.py           (persistence sweep)
  app/backend/services/teacher_service.py
  app/backend/services/student_service.py
  app/backend/api/webhooks.py         (webhook correlator)
  app/backend/tools/wifi_verifier.py  (network-proximity check)

Modelling conventions:
  * `datetime` values are modelled as `Int` timestamps; `uuid.UUID` ids as `Nat`.
  * Redis keys become association lists keyed by the same data the Python key
    strings encode (for example `attendance_records:{attendance_id}:{student}`
    becomes key `(attendance_id, student)`).
  * Redis sets (the secondary indexes) become duplicate-free `List Nat` values;
    `SADD`/`SREM`/`SMEMBERS` are modelled below.  The Python `set.pop()` in
    `get_attendance_session_of_teacher` picks an arbitrary element; the model
    picks the head of the list.
  * Async I/O is sequentialised: each `await`ed store operation is one atomic
    step on the explicit state, in program order.
  * External HTTP effects (the HMAC of a body, payload parsing, the image
    download from the campus directory, the verifier job submission) are
    parameters of the embedded functions; the store side effects around them
    are embedded faithfully.
-/

/-- Association-list write: replaces the first binding of `k` (dropping any
later duplicates of `k`) or appends a new binding, mirroring a key-value SET. -/
def setA {α β : Type} [DecidableEq α] (k : α) (v : β) : List (α × β) → List (α × β)
  | [] => [(k, v)]
  | (k2, v2) :: t => if k2 = k then (k, v) :: (t.filter (fun p => p.1 ≠ k)) else (k2, v2) :: setA k v t

/-- Association-list delete: removes every binding of `k`, mirroring DEL. -/
def delA {α β : Type} [DecidableEq α] (k : α) : List (α × β) → List (α × β)
  | [] => []
  | (k2, v2) :: t => if k2 = k then delA k t else (k2, v2) :: delA k t

/-- Association-list read: first binding of `k`, mirroring GET. -/
def getA {α β : Type} [DecidableEq α] (k : α) : List (α × β) → Option β
  | [] => none
  | (k2, v2) :: t => if k2 = k then some v2 else getA k t


/-- SMEMBERS of a set-valued key: an absent key reads as the empty set. -/
def smembersIdx {κ : Type} [DecidableEq κ] (k : κ) (l : List (κ × List Nat)) : List Nat :=
  (getA k l).getD []

/-- SADD of one id into a set-valued key. -/
def saddIdx {κ : Type} [DecidableEq κ] (k : κ) (id : Nat) (l : List (κ × List Nat)) :
    List (κ × List Nat) :=
  setA k (if id ∈ smembersIdx k l then smembersIdx k l else smembersIdx k l ++ [id]) l

/-- SREM of one id from a set-valued key. -/
def sremIdx {κ : Type} [DecidableEq κ] (k : κ) (id : Nat) (l : List (κ × List Nat)) :
    List (κ × List Nat) :=
  setA k ((smembersIdx k l).filter (fun x => x ≠ id)) l


-- ===== Data model (models/db_models.py and models/redis_models.py) =====

/-- Embeds db_models.User. -/
structure User where
  user_school_number : String
  user_full_name : String
  role : String
deriving DecidableEq, Repr

/-- Embeds redis_models.UserSessionRedis (timestamps as Int, ids as Nat). -/
structure UserSessionRedis where
  user_data : User
  session_id : Nat
  session_start_time : Int
  session_end_time : Int
  image_url : Option String
deriving DecidableEq, Repr

/-- Embeds redis_models.AttendanceRedis. -/
structure AttendanceRedis where
  attendance_id : Nat
  teacher_school_number : String
  teacher_full_name : String
  lesson_name : String
  ip_address : Option String
  start_time : Int
  end_time : Int
  security_option : Nat
  is_deleted : Bool
  deletion_reason : Option String
  deletion_time : Option Int
deriving DecidableEq, Repr

/-- Embeds redis_models.AttendanceRecordRedis. -/
structure AttendanceRecordRedis where
  attendance_id : Nat
  student_number : String
  student_full_name : String
  is_attended : Bool
  attendance_time : Option Int
  fail_reason : Option String
  is_deleted : Bool
  deletion_reason : Option String
  deletion_time : Option Int
deriving DecidableEq, Repr

/-- Embeds db_models.Attendance (the durable representation; it has no
teacher_full_name field — pydantic drops the extra key on construction). -/
structure Attendance where
  attendance_id : Nat
  teacher_school_number : String
  lesson_name : String
  ip_address : Option String
  start_time : Int
  end_time : Int
  security_option : Nat
  is_deleted : Bool
  deletion_reason : Option String
  deletion_time : Option Int
deriving DecidableEq, Repr

/-- Embeds db_models.AttendanceRecord (the durable representation). -/
structure AttendanceRecord where
  attendance_id : Nat
  student_number : String
  is_attended : Bool
  attendance_time : Option Int
  fail_reason : Option String
  is_deleted : Bool
  deletion_reason : Option String
  deletion_time : Option Int
deriving DecidableEq, Repr

-- ===== Ephemeral store state (the Redis key space of redis_client.py) =====

/-- The Redis key space used by RedisClient, one field per key family:
`users:{n}`, `attendance_session:{id}`, `attendance_index:name:{lesson}:{teacher}`,
`attendance_index:teacher:{n}`, `attendance_records:{id}:{student}`,
`verification:{vid}` (the colon-joined value string is modelled as the pair it
encodes).  `dispatched` records which verification ids were POSTed to the
external verifier microservice (an outbound effect, not a Redis key). -/
structure RedisState where
  userSessions : List (String × UserSessionRedis)
  sessions : List (Nat × AttendanceRedis)
  indexName : List ((String × String) × List Nat)
  indexTeacher : List (String × List Nat)
  records : List ((Nat × String) × AttendanceRecordRedis)
  verifications : List (String × (String × Nat))
  dispatched : List String
deriving DecidableEq, Repr

/-- Embeds RedisClient.get_user_session. -/
def get_user_session (st : RedisState) (user_school_number : String) : Option UserSessionRedis :=
  getA user_school_number st.userSessions

/-- Embeds RedisClient.save_attendance_session: one pipeline writing the blob
and SADDing the id into both secondary indexes. -/
def save_attendance_session (st : RedisState) (attendance : AttendanceRedis) : RedisState :=
  { st with
    sessions := setA attendance.attendance_id attendance st.sessions
    indexName := saddIdx (attendance.lesson_name, attendance.teacher_full_name)
      attendance.attendance_id st.indexName
    indexTeacher := saddIdx attendance.teacher_school_number
      attendance.attendance_id st.indexTeacher }

/-- Embeds RedisClient.get_attendance_session. -/
def get_attendance_session (st : RedisState) (attendance_id : Nat) : Option AttendanceRedis :=
  getA attendance_id st.sessions

/-- Embeds RedisClient.get_attendance_session_of_teacher: SMEMBERS on the
teacher index, pop one id (modelled as the list head), fetch the blob, and
return it only when its end_time is still in the future. -/
def get_attendance_session_of_teacher (st : RedisState) (teacher_school_number : String)
    (now : Int) : Option AttendanceRedis :=
  match smembersIdx teacher_school_number st.indexTeacher with
  | [] => none
  | attendance_id :: _ =>
    match getA attendance_id st.sessions with
    | some session => if now < session.end_time then some session else none
    | none => none

/-- Embeds RedisClient.delete_attendance_session: one pipeline deleting the
blob and SREMing the id from both secondary indexes. -/
def delete_attendance_session (st : RedisState) (attendance : AttendanceRedis) : RedisState :=
  { st with
    sessions := delA attendance.attendance_id st.sessions
    indexName := sremIdx (attendance.lesson_name, attendance.teacher_full_name)
      attendance.attendance_id st.indexName
    indexTeacher := sremIdx attendance.teacher_school_number
      attendance.attendance_id st.indexTeacher }

/-- Embeds RedisClient.add_attendance_record (and update_attendance_record,
which delegates to it): SET under key `(attendance_id, student_number)`. -/
def add_attendance_record (st : RedisState) (record : AttendanceRecordRedis) : RedisState :=
  { st with records := setA (record.attendance_id, record.student_number) record st.records }

/-- Embeds RedisClient.get_attendance_records: the prefix scan over
`attendance_records:{attendance_id}:*`, in stored order. -/
def get_attendance_records (st : RedisState) (attendance_id : Nat) : List AttendanceRecordRedis :=
  (st.records.filter (fun p => p.1.1 = attendance_id)).map Prod.snd

/-- Embeds RedisClient.get_attendance_record_by_id. -/
def get_attendance_record_by_id (st : RedisState) (attendance_id : Nat)
    (student_number : String) : Option AttendanceRecordRedis :=
  getA (attendance_id, student_number) st.records

/-- Embeds RedisClient.update_attendance_record, which just re-SETs the key. -/
def update_attendance_record (st : RedisState) (record : AttendanceRecordRedis) : RedisState :=
  add_attendance_record st record

/-- Embeds RedisClient.map_verification_to_user (the 300s TTL is not modelled;
expiry is out of scope for the settled claims). -/
def map_verification_to_user (st : RedisState) (verification_id : String)
    (user_school_number : String) (attendance_id : Nat) : RedisState :=
  { st with verifications := setA verification_id (user_school_number, attendance_id) st.verifications }

/-- Embeds RedisClient.get_user_and_attendance_for_verification. -/
def get_user_and_attendance_for_verification (st : RedisState) (verification_id : String) :
    Option (String × Nat) :=
  getA verification_id st.verifications

/-- Embeds RedisClient.delete_verification_mapping. -/
def delete_verification_mapping (st : RedisState) (verification_id : String) : RedisState :=
  { st with verifications := delA verification_id st.verifications }

-- ===== Network-proximity check (tools/wifi_verifier.py) =====

/-- Result of Python `ipaddress.ip_address(...)`: an IPv4 address (32-bit
value), an IPv6 address (128-bit value), or a ValueError. -/
inductive IPParse where
  | v4 (addr : Nat)
  | v6 (addr : Nat)
  | invalid
deriving DecidableEq, Repr

/-- Splits a character list on one separator character, like `str.split`. -/
def splitOnChar (sep : Char) : List Char → List (List Char)
  | [] => [[]]
  | c :: t =>
    if c = sep then [] :: splitOnChar sep t
    else match splitOnChar sep t with
      | h :: r => (c :: h) :: r
      | [] => [[c]]

/-- Splits a character list on each non-overlapping occurrence of a double
colon, like `str.split` with separator `::`. -/
def splitOnDoubleColon : List Char → List (List Char)
  | [] => [[]]
  | [c] => [[c]]
  | c1 :: c2 :: t =>
    if c1 = ':' ∧ c2 = ':' then [] :: splitOnDoubleColon t
    else match splitOnDoubleColon (c2 :: t) with
      | h :: r => (c1 :: h) :: r
      | [] => [[c1]]

/-- Numeric value of a decimal digit string. -/
def decValue (cs : List Char) : Nat := cs.foldl (fun n c => n * 10 + (c.toNat - 48)) 0

/-- One dotted-quad octet, with the `ipaddress` module's rules: 1-3 decimal
digits, no leading zero, value at most 255. -/
def parseOctet (cs : List Char) : Option Nat :=
  if cs ≠ [] ∧ cs.all Char.isDigit ∧ cs.length ≤ 3 ∧ (cs.length = 1 ∨ cs.head? ≠ some '0') ∧
      decValue cs ≤ 255 then
    some (decValue cs)
  else none

/-- Dotted-quad IPv4 parsing (the syntax accepted by `ipaddress.IPv4Address`). -/
def parseIPv4 (cs : List Char) : Option Nat :=
  match (splitOnChar '.' cs).map parseOctet with
  | [some a, some b, some c, some d] => some (((a * 256 + b) * 256 + c) * 256 + d)
  | _ => none

/-- Value of one hexadecimal digit. -/
def hexVal (c : Char) : Option Nat :=
  if c.isDigit then some (c.toNat - 48)
  else if 'a' ≤ c ∧ c ≤ 'f' then some (c.toNat - 87)
  else if 'A' ≤ c ∧ c ≤ 'F' then some (c.toNat - 55)
  else none

/-- One IPv6 group: 1-4 hexadecimal digits. -/
def parseHextet (cs : List Char) : Option Nat :=
  if cs = [] ∨ 4 < cs.length then none
  else cs.foldl (fun acc c => match acc, hexVal c with
    | some n, some v => some (n * 16 + v)
    | _, _ => none) (some 0)

/-- Assembles 16-bit groups into the 128-bit address value. -/
def joinGroups (gs : List Nat) : Nat := gs.foldl (fun n g => n * 65536 + g) 0

/-- IPv6 parsing covering the colon-hexadecimal forms of `ipaddress.IPv6Address`
(full eight-group form and a single double-colon compression; IPv4-embedded
and zone-id forms are outside the fragment exercised here). -/
def parseIPv6 (cs : List Char) : Option Nat :=
  if cs = [':', ':'] then some 0
  else match splitOnDoubleColon cs with
  | [t] =>
    match (splitOnChar ':' t).mapM parseHextet with
    | some gs => if gs.length = 8 then some (joinGroups gs) else none
    | none => none
  | [lpart, rpart] =>
    let lgroups := if lpart = [] then ([] : List (List Char)) else splitOnChar ':' lpart
    let rgroups := if rpart = [] then ([] : List (List Char)) else splitOnChar ':' rpart
    match lgroups.mapM parseHextet, rgroups.mapM parseHextet with
    | some lg, some rg =>
      if lg.length + rg.length ≤ 7 then
        some (joinGroups (lg ++ List.replicate (8 - lg.length - rg.length) 0 ++ rg))
      else none
    | _, _ => none
  | _ => none

/-- Embeds `ipaddress.ip_address(s)`: try IPv4, then IPv6, else ValueError. -/
def ipParse (s : String) : IPParse :=
  match parseIPv4 s.toList with
  | some a => IPParse.v4 a
  | none =>
    match parseIPv6 s.toList with
    | some a => IPParse.v6 a
    | none => IPParse.invalid

/-- Embeds tools/wifi_verifier.verify_wifi.  The falsy guard on the two
address strings, the exact-match short circuit, the same /64 subnet rule for
two IPv6 addresses, the same /24 subnet rule for two IPv4 addresses, `False`
for a mixed-family pair, and the exact-string fallback when parsing raises,
all in the source's order.  `session_ip` is the session's Optional
ip_address. -/
def verify_wifi (session_ip : Option String) (ip_address : String) : Bool :=
  match session_ip with
  | none => false
  | some s =>
    if s = "" ∨ ip_address = "" then false
    else if s = ip_address then true
    else match ipParse s, ipParse ip_address with
      | IPParse.v6 a, IPParse.v6 b => decide (a / 18446744073709551616 = b / 18446744073709551616)
      | IPParse.v4 a, IPParse.v4 b => decide (a / 256 = b / 256)
      | IPParse.v4 _, IPParse.v6 _ => false
      | IPParse.v6 _, IPParse.v4 _ => false
      | _, _ => decide (s = ip_address)

/-- Two strings that parse as IPv4 addresses in the same /24 network (the
high 24 bits agree, i.e. the values divided by 256 agree). -/
def sameV4Subnet24 (s c : String) : Prop :=
  ∃ a b, ipParse s = IPParse.v4 a ∧ ipParse c = IPParse.v4 b ∧ a / 256 = b / 256

/-- Two strings that parse as IPv6 addresses in the same /64 network (the
high 64 bits agree, i.e. the values divided by 2 to the 64 agree). -/
def sameV6Subnet64 (s c : String) : Prop :=
  ∃ a b, ipParse s = IPParse.v6 a ∧ ipParse c = IPParse.v6 b ∧
    a / 18446744073709551616 = b / 18446744073709551616


-- ===== Durable store state and client (db/db_client.py) =====

/-- The three relational tables, keyed by their primary keys. -/
structure DbState where
  users : List (String × User)
  attendances : List (Nat × Attendance)
  attendanceRecords : List ((Nat × String) × AttendanceRecord)
deriving DecidableEq, Repr

/-- Embeds AsyncPostgresClient.add_users: INSERT with
ON CONFLICT (user_school_number) DO NOTHING, one row at a time. -/
def add_users (db : DbState) (users : List User) : DbState :=
  users.foldl (fun d u =>
    if (getA u.user_school_number d.users).isSome then d
    else { d with users := d.users ++ [(u.user_school_number, u)] }) db

/-- Embeds AsyncPostgresClient.add_attendances: INSERT with
ON CONFLICT (attendance_id) DO NOTHING. -/
def add_attendances (db : DbState) (attendances : List Attendance) : DbState :=
  attendances.foldl (fun d a =>
    if (getA a.attendance_id d.attendances).isSome then d
    else { d with attendances := d.attendances ++ [(a.attendance_id, a)] }) db

/-- Embeds AsyncPostgresClient.add_attendance_records: INSERT with
ON CONFLICT (attendance_id, student_number) DO UPDATE, which overwrites the
three payload columns and clears the soft-delete columns; a fresh INSERT gets
the column defaults for the soft-delete columns.  Either way the resulting
row is exactly the incoming record with the soft-delete columns cleared. -/
def add_attendance_records (db : DbState) (records : List AttendanceRecord) : DbState :=
  records.foldl (fun d r =>
    let stored : AttendanceRecord :=
      { r with is_deleted := false, deletion_reason := none, deletion_time := none }
    { d with attendanceRecords := setA (r.attendance_id, r.student_number) stored d.attendanceRecords }) db

-- ===== Persistence sweep (tasks/cron.py, unified_persistence_task) =====

/-- The teacher User row the sweep upserts (cron.py lines 41-46). -/
def teacher_user_of (a : AttendanceRedis) : User :=
  { user_school_number := a.teacher_school_number
    user_full_name := a.teacher_full_name
    role := "Teacher" }

/-- The student User row the sweep upserts for one record (cron.py line 55). -/
def student_user_of (r : AttendanceRecordRedis) : User :=
  { user_school_number := r.student_number
    user_full_name := r.student_full_name
    role := "Student" }

/-- The durable Attendance built from the live blob (cron.py line 60; the
extra teacher_full_name key is dropped by the pydantic constructor). -/
def attendance_to_db (a : AttendanceRedis) : Attendance :=
  { attendance_id := a.attendance_id
    teacher_school_number := a.teacher_school_number
    lesson_name := a.lesson_name
    ip_address := a.ip_address
    start_time := a.start_time
    end_time := a.end_time
    security_option := a.security_option
    is_deleted := a.is_deleted
    deletion_reason := a.deletion_reason
    deletion_time := a.deletion_time }

/-- The durable AttendanceRecord built from a live record (cron.py line 57:
model_dump restricted to the five payload fields, the rest defaulted). -/
def record_to_db (r : AttendanceRecordRedis) : AttendanceRecord :=
  { attendance_id := r.attendance_id
    student_number := r.student_number
    is_attended := r.is_attended
    attendance_time := r.attendance_time
    fail_reason := r.fail_reason
    is_deleted := false
    deletion_reason := none
    deletion_time := none }

/-- Embeds one loop iteration of tasks/cron.unified_persistence_task for the
session key `attendance_session:{attendance_id}`: skip when the blob is gone
or `end_time >= now`; otherwise upsert the teacher row, collect the live
records, upsert the student rows, upsert the session, upsert the records,
then delete the live session (blob plus both indexes) and delete every
collected live record key, in the source's order. -/
def unified_persistence_step (st : RedisState) (db : DbState) (attendance_id : Nat)
    (now : Int) : RedisState × DbState :=
  match get_attendance_session st attendance_id with
  | none => (st, db)
  | some attendance_session =>
    if now ≤ attendance_session.end_time then (st, db)
    else
      let db1 := add_users db [teacher_user_of attendance_session]
      let recs := get_attendance_records st attendance_id
      let db2 := add_users db1 (recs.map student_user_of)
      let db3 := add_attendances db2 [attendance_to_db attendance_session]
      let db4 := add_attendance_records db3 (recs.map record_to_db)
      let st1 := delete_attendance_session st attendance_session
      let st2 := { st1 with
        records := recs.foldl (fun l r => delA (attendance_id, r.student_number) l) st1.records }
      (st2, db4)

-- ===== Teacher service (services/teacher_service.py) =====

/-- Outcome of TeacherService.start_attendance: a raised ServiceError or the
fresh session. -/
inductive StartOutcome where
  | err (msg : String)
  | ok (attendance : AttendanceRedis)
deriving DecidableEq, Repr

/-- Embeds TeacherService.start_attendance: reject when the teacher-index
lookup still resolves a live, unexpired session; otherwise build the new
session (fresh id supplied as `newId`) and save it with both indexes. -/
def start_attendance (st : RedisState) (teacher : User) (lesson_name : String)
    (ip_address : Option String) (start_time end_time : Int) (security_option : Nat)
    (newId : Nat) (now : Int) : RedisState × StartOutcome :=
  match get_attendance_session_of_teacher st teacher.user_school_number now with
  | some _ => (st, StartOutcome.err "You already have an active attendance session. Please end it first.")
  | none =>
    let new_attendance_session : AttendanceRedis :=
      { attendance_id := newId
        teacher_school_number := teacher.user_school_number
        teacher_full_name := teacher.user_full_name
        lesson_name := lesson_name
        ip_address := ip_address
        start_time := start_time
        end_time := end_time
        security_option := security_option
        is_deleted := false
        deletion_reason := none
        deletion_time := none }
    (save_attendance_session st new_attendance_session, StartOutcome.ok new_attendance_session)

/-- Outcome of TeacherService.finish_attendance. -/
inductive FinishOutcome where
  | authError
  | ok
deriving DecidableEq, Repr

/-- Embeds TeacherService.finish_attendance: load the blob, authorize the
owner, set end_time to now and save the session back; it never deletes. -/
def finish_attendance (st : RedisState) (teacher : User) (attendance_id : Nat)
    (now : Int) : RedisState × FinishOutcome :=
  match get_attendance_session st attendance_id with
  | none => (st, FinishOutcome.authError)
  | some session_to_finish =>
    if session_to_finish.teacher_school_number = teacher.user_school_number then
      (save_attendance_session st { session_to_finish with end_time := now }, FinishOutcome.ok)
    else (st, FinishOutcome.authError)

/-- Embeds TeacherService.fail_student_in_live_attendance: load the record,
set is_attended to False and fail_reason to the given reason (touching no
other field), write it back. -/
def fail_student_in_live_attendance (st : RedisState) (attendance_id : Nat)
    (student_school_number : String) (reason : String) :
    RedisState × Option AttendanceRecordRedis :=
  match get_attendance_record_by_id st attendance_id student_school_number with
  | none => (st, none)
  | some target_record =>
    let updated := { target_record with is_attended := false, fail_reason := some reason }
    (update_attendance_record st updated, some updated)

-- ===== Student service (services/student_service.py) =====

/-- Outcome of StudentService.attend_to_attendance: a raised ServiceError or
the stored record returned to the caller. -/
inductive AttendOutcome where
  | err (msg : String)
  | recorded (record : AttendanceRecordRedis)
deriving DecidableEq, Repr

/-- Builds and stores the final record of an attendance attempt
(student_service.py lines 134-146): is_attended iff no fail_reason, with the
attendance timestamp set only on success. -/
def attend_record_result (st : RedisState) (active_attendance : AttendanceRedis)
    (student : User) (fail_reason : Option String) (now : Int) :
    RedisState × AttendOutcome :=
  let new_record : AttendanceRecordRedis :=
    { attendance_id := active_attendance.attendance_id
      student_number := student.user_school_number
      student_full_name := student.user_full_name
      is_attended := fail_reason.isNone
      attendance_time := if fail_reason.isNone then some now else none
      fail_reason := fail_reason
      is_deleted := false
      deletion_reason := none
      deletion_time := none }
  (add_attendance_record st new_record, AttendOutcome.recorded new_record)

/-- Embeds the security-check block of StudentService.attend_to_attendance
(lines 75-132) plus the final record write: the tier-2 network check, then
the tier-3 photo/reference checks and the verification-job dispatch of
tools/face_verifier.submit_face_verification_job (correlation entry written
before the POST, rolled back when the POST fails).  `downloadOk` stands for
the reference-image download from the campus directory succeeding (a failure
escapes to the outer handler, which raises without writing any record);
`submitOk` for the microservice accepting the job; `newVid` for the
uuid4-generated verification id. -/
def attend_security_checks (st : RedisState) (active_attendance : AttendanceRedis)
    (student : User) (student_ip : Option String) (normal_image_bytes : Option (List Nat))
    (downloadOk : Bool) (submitOk : Bool) (newVid : String) (now : Int) :
    RedisState × AttendOutcome :=
  let wifiOk : Bool :=
    match student_ip with
    | none => false
    | some ip => if ip = "" then false else verify_wifi active_attendance.ip_address ip
  let fail1 : Option String :=
    if 2 ≤ active_attendance.security_option ∧ wifiOk = false then some "WIFI_FAILED" else none
  if active_attendance.security_option = 3 ∧ fail1 = none then
    match normal_image_bytes with
    | none =>
      attend_record_result st active_attendance student
        (some "FACE_VERIFICATION_REQUIRED_BUT_IMAGE_MISSING") now
    | some _ =>
      match get_user_session st student.user_school_number with
      | none => attend_record_result st active_attendance student (some "REFERENCE_IMAGE_NOT_FOUND") now
      | some user_session =>
        match user_session.image_url with
        | none => attend_record_result st active_attendance student (some "REFERENCE_IMAGE_NOT_FOUND") now
        | some url =>
          if url = "" then
            attend_record_result st active_attendance student (some "REFERENCE_IMAGE_NOT_FOUND") now
          else if downloadOk = false then
            (st, AttendOutcome.err "An unexpected error occurred during the attendance process.")
          else
            let st1 := map_verification_to_user st newVid student.user_school_number
              active_attendance.attendance_id
            let st2 := { st1 with dispatched := st1.dispatched ++ [newVid] }
            if submitOk then
              attend_record_result st2 active_attendance student (some "FACE_RECOGNITION_PENDING") now
            else
              attend_record_result (delete_verification_mapping st2 newVid) active_attendance
                student (some "FACE_VERIFICATION_SUBMISSION_FAILED") now
  else attend_record_result st active_attendance student fail1 now

/-- Embeds StudentService.attend_to_attendance: existence and freshness checks
on the session, the double-attempt guard on the existing record, then the
security checks and the record write. -/
def attend_to_attendance (st : RedisState) (student : User) (attendance_id : Nat)
    (student_ip : Option String) (normal_image_bytes : Option (List Nat))
    (downloadOk : Bool) (submitOk : Bool) (newVid : String) (now : Int) :
    RedisState × AttendOutcome :=
  match get_attendance_session st attendance_id with
  | none => (st, AttendOutcome.err "This attendance session does not exist.")
  | some active_attendance =>
    if active_attendance.end_time ≤ now then
      (st, AttendOutcome.err "This attendance session has already ended.")
    else
      match get_attendance_record_by_id st attendance_id student.user_school_number with
      | some existing_record =>
        if existing_record.is_attended then
          (st, AttendOutcome.err "You have already successfully joined this session.")
        else if existing_record.fail_reason = some "FACE_RECOGNITION_PENDING" then
          (st, AttendOutcome.err "Your attendance is already pending verification. Please wait.")
        else
          attend_security_checks st active_attendance student student_ip normal_image_bytes
            downloadOk submitOk newVid now
      | none =>
        attend_security_checks st active_attendance student student_ip normal_image_bytes
          downloadOk submitOk newVid now

-- ===== Webhook correlator (api/webhooks.py) =====

/-- Embeds api/webhooks.VerificationResultPayload. -/
structure VerificationResultPayload where
  verification_passed : Bool
  reason : String
deriving DecidableEq, Repr

/-- The HTTP outcome of the webhook endpoint. -/
inductive WebhookResult where
  | forbidden
  | unprocessable
  | alreadyProcessed
  | recordNotFound
  | success
deriving DecidableEq, Repr

/-- HTTP status code of each webhook outcome (403 bad signature, 422 bad
payload, 404 dangling correlation, 200 otherwise; the already-processed
branch returns 200 with a status message, not an error). -/
def webhookStatusCode : WebhookResult → Nat
  | WebhookResult.forbidden => 403
  | WebhookResult.unprocessable => 422
  | WebhookResult.alreadyProcessed => 200
  | WebhookResult.recordNotFound => 404
  | WebhookResult.success => 200

/-- Embeds api/webhooks.update_attendance_from_webhook.  `hmacSig` computes
the HMAC-SHA256 hex digest of a raw body under the pre-shared secret, and
`parseBody` the JSON extraction of `overall_result` into the payload model;
both are opaque parameters of the embedding.  The handler checks the
signature first (constant-time equality), parses, resolves the correlation,
loads the record, applies the verdict, writes the record back, and deletes
the correlation entry, in the source's order. -/
def update_attendance_from_webhook (hmacSig : List Nat → String)
    (parseBody : List Nat → Option VerificationResultPayload) (st : RedisState)
    (verification_id : String) (raw_body : List Nat) (x_webhook_signature : String)
    (now : Int) : RedisState × WebhookResult :=
  if hmacSig raw_body ≠ x_webhook_signature then (st, WebhookResult.forbidden)
  else
    match parseBody raw_body with
    | none => (st, WebhookResult.unprocessable)
    | some payload =>
      match get_user_and_attendance_for_verification st verification_id with
      | none => (st, WebhookResult.alreadyProcessed)
      | some (user_school_number, attendance_id) =>
        match get_attendance_record_by_id st attendance_id user_school_number with
        | none => (delete_verification_mapping st verification_id, WebhookResult.recordNotFound)
        | some attendance_record =>
          let updated : AttendanceRecordRedis :=
            if payload.verification_passed then
              { attendance_record with is_attended := true, attendance_time := some now, fail_reason := none }
            else
              { attendance_record with is_attended := false, fail_reason := some ("FACE_VERIFICATION_FAILED: " ++ payload.reason) }
          let st1 := update_attendance_record st updated
          (delete_verification_mapping st1 verification_id, WebhookResult.success)

-- ===== Dual-store lifecycle of one session id (claims about the invariant) =====

/-- Observable facts about one attendance id across the two stores: whether it
was ever created, whether the live blob `attendance_session:{id}` exists,
whether its end_time is in the past, whether the durable Attendances row
exists, and whether a sweep pass over this id has completed its durable
writes but not yet its Redis cleanup (the region between cron.py line 61 and
line 69). -/
structure DualStoreState where
  created : Bool
  live : Bool
  expired : Bool
  durable : Bool
  midSweep : Bool
deriving DecidableEq, Repr

/-- Before the session is created nothing exists anywhere. -/
def dualInit : DualStoreState :=
  { created := false, live := false, expired := false, durable := false, midSweep := false }

/-- Atomic observable transitions of one session id, each corresponding to one
awaited store operation (or a scheduler event) in the sources:
`create` is TeacherService.start_attendance's save_attendance_session;
`finishOrExpire` is TeacherService.finish_attendance's end_time update or the
clock passing end_time; `sweepDurableWrite` is the sweep completing
add_attendances for an expired live session (cron.py line 61);
`sweepLiveDelete` is the sweep's delete_attendance_session (cron.py line 69);
`sweepFailure` is the except-branch abandoning a session after the durable
write but before the cleanup (retried on a later pass); `readerTraffic` is
any concurrent read, which mutates neither store. -/
inductive DualStep : DualStoreState → DualStoreState → Prop
  | create (s : DualStoreState) (h : s.created = false) :
      DualStep s { created := true, live := true, expired := false, durable := s.durable, midSweep := false }
  | finishOrExpire (s : DualStoreState) (h : s.live = true) :
      DualStep s { s with expired := true }
  | sweepDurableWrite (s : DualStoreState) (h1 : s.live = true) (h2 : s.expired = true)
      (h3 : s.midSweep = false) :
      DualStep s { s with durable := true, midSweep := true }
  | sweepLiveDelete (s : DualStoreState) (h : s.midSweep = true) :
      DualStep s { s with live := false, midSweep := false }
  | sweepFailure (s : DualStoreState) (h : s.midSweep = true) :
      DualStep s { s with midSweep := false }
  | readerTraffic (s : DualStoreState) : DualStep s s

/-- States reachable from the empty initial state by any interleaving. -/
def DualReachable (s : DualStoreState) : Prop :=
  Relation.ReflTransGen DualStep dualInit s

/-- Inductive invariant of the dual-store lifecycle. -/
def DualInv (s : DualStoreState) : Prop :=
  (s.created = true → s.live = true ∨ s.durable = true) ∧
  (s.live = true → s.created = true) ∧
  (s.durable = true → s.created = true ∧ s.expired = true) ∧
  (s.midSweep = true → s.durable = true ∧ s.live = true)


-- ===== Concrete fixtures used by the witness theorems =====

/-- A teacher used in concrete evaluations. -/
def exTeacher : User :=
  { user_school_number := "T100", user_full_name := "Alice Kaya", role := "Teacher" }

/-- A student used in concrete evaluations. -/
def exStudent : User :=
  { user_school_number := "S200", user_full_name := "Bora Demir", role := "Student" }

/-- A tier-2 session owned by exTeacher, open from time 0 to time 100. -/
def exSession : AttendanceRedis :=
  { attendance_id := 1, teacher_school_number := "T100", teacher_full_name := "Alice Kaya",
    lesson_name := "Math", ip_address := some "192.168.1.1", start_time := 0, end_time := 100,
    security_option := 2, is_deleted := false, deletion_reason := none, deletion_time := none }

/-- The same session configured at tier 3. -/
def exSession3 : AttendanceRedis := { exSession with security_option := 3 }

/-- A record of exStudent in exSession that was accepted at time 50. -/
def exAttendedRecord : AttendanceRecordRedis :=
  { attendance_id := 1, student_number := "S200", student_full_name := "Bora Demir",
    is_attended := true, attendance_time := some 50, fail_reason := none,
    is_deleted := false, deletion_reason := none, deletion_time := none }

/-- A record of exStudent awaiting the external verification verdict. -/
def exPendingRecord : AttendanceRecordRedis :=
  { exAttendedRecord with
    is_attended := false
    attendance_time := none
    fail_reason := some "FACE_RECOGNITION_PENDING" }

/-- An empty durable store. -/
def exDb : DbState := { users := [], attendances := [], attendanceRecords := [] }

/-- A live store holding exSession with both index entries and nothing else. -/
def exState : RedisState :=
  { userSessions := [], sessions := [(1, exSession)],
    indexName := [(("Math", "Alice Kaya"), [1])], indexTeacher := [("T100", [1])],
    records := [], verifications := [], dispatched := [] }

/-- exState with exStudent already accepted. -/
def exStateAttended : RedisState := { exState with records := [((1, "S200"), exAttendedRecord)] }

/-- exState with exStudent pending and a live correlation entry for id vid-1. -/
def exStatePending : RedisState :=
  { exState with
    records := [((1, "S200"), exPendingRecord)]
    verifications := [("vid-1", ("S200", 1))] }

/-- exState with the session configured at tier 3. -/
def exState3 : RedisState := { exState with sessions := [(1, exSession3)] }

-- ===== Theorems =====
theorem getA_setA_self {α β : Type} [DecidableEq α] (k : α) (v : β) (l : List (α × β)) :
    getA k (setA k v l) = some v := by
  induction l with
  | nil => simp [setA, getA]
  | cons h t ih =>
    obtain ⟨k2, v2⟩ := h
    by_cases hk : k2 = k <;> simp [setA, getA, hk, ih]

theorem getA_filter_ne {α β : Type} [DecidableEq α] {k k' : α} (l : List (α × β))
    (h : k' ≠ k) : getA k' (l.filter (fun p => p.1 ≠ k)) = getA k' l := by
  induction l with
  | nil => rfl
  | cons hd t ih =>
    obtain ⟨k2, v2⟩ := hd
    rw [List.filter_cons]
    by_cases hk : k2 = k
    · have hcond : (decide ((k2, v2).1 ≠ k)) = false := by simp [hk]
      rw [hcond]
      have hne : ¬(k2 = k') := by rw [hk]; exact fun hh => h hh.symm
      simp only [getA, if_neg hne, Bool.false_eq_true, if_false]
      exact ih
    · have hcond : (decide ((k2, v2).1 ≠ k)) = true := by simp [hk]
      rw [hcond]
      by_cases hk2 : k2 = k'
      · simp only [getA, if_pos hk2, if_true]
      · simp only [getA, if_neg hk2]
        exact ih

theorem getA_setA_ne {α β : Type} [DecidableEq α] {k k' : α} (v : β) (l : List (α × β))
    (h : k' ≠ k) : getA k' (setA k v l) = getA k' l := by
  induction l with
  | nil => simp only [setA, getA, if_neg (Ne.symm h)]
  | cons hd t ih =>
    obtain ⟨k2, v2⟩ := hd
    by_cases hk : k2 = k
    · have hne : ¬(k2 = k') := by rw [hk]; exact fun hh => h hh.symm
      simp only [setA, if_pos hk, getA, if_neg (Ne.symm h), if_neg hne]
      exact getA_filter_ne t h
    · by_cases hk2 : k2 = k'
      · simp only [setA, if_neg hk, getA, if_pos hk2]
      · simp only [setA, if_neg hk, getA, if_neg hk2]
        exact ih

theorem getA_delA_self {α β : Type} [DecidableEq α] (k : α) (l : List (α × β)) :
    getA k (delA k l) = none := by
  induction l with
  | nil => rfl
  | cons hd t ih =>
    obtain ⟨k2, v2⟩ := hd
    by_cases hk : k2 = k
    · simp only [delA, if_pos hk]
      exact ih
    · simp only [delA, if_neg hk, getA, if_neg hk]
      exact ih

theorem getA_delA_ne {α β : Type} [DecidableEq α] {k k' : α} (l : List (α × β))
    (h : k' ≠ k) : getA k' (delA k l) = getA k' l := by
  induction l with
  | nil => rfl
  | cons hd t ih =>
    obtain ⟨k2, v2⟩ := hd
    by_cases hk : k2 = k
    · have hne : ¬(k2 = k') := by rw [hk]; exact fun hh => h hh.symm
      simp only [delA, if_pos hk, getA, if_neg hne]
      exact ih
    · by_cases hk2 : k2 = k'
      · simp only [delA, if_neg hk, getA, if_pos hk2]
      · simp only [delA, if_neg hk, getA, if_neg hk2]
        exact ih

theorem getA_some_mem {α β : Type} [DecidableEq α] {k : α} {v : β} {l : List (α × β)}
    (h : getA k l = some v) : (k, v) ∈ l := by
  induction l with
  | nil => simp [getA] at h
  | cons hd t ih =>
    obtain ⟨k2, v2⟩ := hd
    by_cases hk : k2 = k
    · subst hk
      simp [getA] at h
      simp [h]
    · simp [getA, hk] at h
      exact List.mem_cons_of_mem _ (ih h)

theorem smembersIdx_saddIdx_self {κ : Type} [DecidableEq κ] (k : κ) (id : Nat)
    (l : List (κ × List Nat)) : id ∈ smembersIdx k (saddIdx k id l) := by
  unfold saddIdx smembersIdx
  rw [getA_setA_self]
  by_cases h : id ∈ (getA k l).getD [] <;> simp [smembersIdx, h]

theorem smembersIdx_sremIdx_self {κ : Type} [DecidableEq κ] (k : κ) (id : Nat)
    (l : List (κ × List Nat)) : id ∉ smembersIdx k (sremIdx k id l) := by
  unfold sremIdx smembersIdx
  rw [getA_setA_self]
  simp [List.mem_filter]

theorem dualInv_init : DualInv dualInit := by
  constructor <;> simp [dualInit, DualInv]

theorem dualInv_step {s s2 : DualStoreState} (hinv : DualInv s) (hstep : DualStep s s2) :
    DualInv s2 := by
  obtain ⟨h1, h2, h3, h4⟩ := hinv
  cases hstep with
  | create h => exact ⟨fun _ => Or.inl rfl, fun _ => rfl,
      fun hd => absurd (h3 hd).1 (by simp [h]), by simp⟩
  | finishOrExpire h => exact ⟨h1, h2, fun hd => ⟨(h3 hd).1, rfl⟩, h4⟩
  | sweepDurableWrite hl he hm => exact ⟨fun _ => Or.inl hl, h2, fun _ => ⟨h2 hl, he⟩, fun _ => ⟨rfl, hl⟩⟩
  | sweepLiveDelete hm => exact ⟨fun _ => Or.inr (h4 hm).1, by simp, h3, by simp⟩
  | sweepFailure hm => exact ⟨h1, h2, h3, by simp⟩
  | readerTraffic => exact ⟨h1, h2, h3, h4⟩

theorem dualInv_reachable {s : DualStoreState} (h : DualReachable s) : DualInv s := by
  induction h with
  | refl => exact dualInv_init
  | tail _ hstep ih => exact dualInv_step ih hstep

-- ===== C1: dual-store membership of a session id =====

/-- C1 (amended): once an attendance session has been created, every state
reachable under any interleaving of creation, sweep steps and reader traffic
has its id in at least one of the two stores — "neither" is unreachable; and
whenever the id is in both stores at once the session is already expired,
which happens only inside the sweep's migration window (between the durable
write and the live delete, including retry windows after a failed sweep).
The strict exactly-one (XOR) form of the claim is refuted by
c1_counterexample. -/
theorem c1_live_xor_durable_amended (s : DualStoreState) (h : DualReachable s) :
    (s.created = true → s.live = true ∨ s.durable = true) ∧
    (s.live = true → s.durable = true → s.expired = true) := by
  obtain ⟨h1, _, h3, _⟩ := dualInv_reachable h
  exact ⟨h1, fun _ hd => (h3 hd).2⟩

/-- C1 counterexample: the state reached by create, finish, then the sweep's
durable write (cron.py line 61) — before the live delete (cron.py line 69) —
is reachable, is created, and has the session id in both stores at once,
refuting the claim that the id is in exactly one store at every observable
instant. -/
theorem c1_counterexample :
    DualReachable { created := true, live := true, expired := true, durable := true, midSweep := true } ∧
    ¬ (∀ s : DualStoreState, DualReachable s → s.created = true →
        (s.live = true ∧ s.durable = false) ∨ (s.live = false ∧ s.durable = true)) := by
  have hreach : DualReachable
      { created := true, live := true, expired := true, durable := true, midSweep := true } :=
    Relation.ReflTransGen.head (DualStep.create dualInit rfl)
      (Relation.ReflTransGen.head (DualStep.finishOrExpire _ rfl)
        (Relation.ReflTransGen.single (DualStep.sweepDurableWrite _ rfl rfl rfl)))
  refine ⟨hreach, fun hall => ?_⟩
  have hx := hall _ hreach rfl
  simp at hx

/-- C1 witness: the amended theorem applied to the concrete state right after
creation, whose reachability is the single create step. -/
theorem c1_witness :
    DualReachable { created := true, live := true, expired := false, durable := false, midSweep := false } ∧
    ((true : Bool) = true ∨ (false : Bool) = true) := by
  have hreach : DualReachable
      { created := true, live := true, expired := false, durable := false, midSweep := false } :=
    Relation.ReflTransGen.single (DualStep.create dualInit rfl)
  exact ⟨hreach, (c1_live_xor_durable_amended _ hreach).1 rfl⟩

-- ===== C4: invalid webhook signature =====

/-- C4: a webhook delivery whose HMAC-SHA256 signature over the raw body does
not match the expected digest is rejected with 403 and the state is returned
untouched — no record is read or mutated and no correlation entry is consumed
or deleted, regardless of the body or the verification id. -/
theorem c4_bad_signature_rejects_untouched (hmacSig : List Nat → String)
    (parseBody : List Nat → Option VerificationResultPayload) (st : RedisState)
    (verification_id : String) (raw_body : List Nat) (x_webhook_signature : String)
    (now : Int) (h : hmacSig raw_body ≠ x_webhook_signature) :
    update_attendance_from_webhook hmacSig parseBody st verification_id raw_body
      x_webhook_signature now = (st, WebhookResult.forbidden) ∧
    webhookStatusCode WebhookResult.forbidden = 403 := by
  refine ⟨?_, rfl⟩
  simp only [update_attendance_from_webhook, if_pos h]

/-- C4 witness: a concrete delivery with a wrong signature against the state
holding a pending record and a live correlation entry. -/
theorem c4_witness :
    (fun (_ : List Nat) => "goodsig") [7] ≠ "badsig" ∧
    update_attendance_from_webhook (fun _ => "goodsig") (fun _ => none) exStatePending
      "vid-1" [7] "badsig" 60 = (exStatePending, WebhookResult.forbidden) ∧
    webhookStatusCode WebhookResult.forbidden = 403 :=
  ⟨by decide,
   c4_bad_signature_rejects_untouched (fun _ => "goodsig") (fun _ => none) exStatePending
     "vid-1" [7] "badsig" 60 (by decide)⟩

-- ===== C3: webhook pass verdict applied exactly once =====

/-- C3: a validly signed webhook whose verification id resolves through the
correlation map to an existing record and carries verification_passed=true
returns success, updates the record to attended with the timestamp set and
the failure reason cleared, deletes the correlation entry, and a second
validly signed delivery of the same verification id afterwards leaves the
state exactly as it is and returns the 200 already-processed outcome, not an
error. -/
theorem c3_webhook_pass_idempotent (hmacSig : List Nat → String)
    (parseBody : List Nat → Option VerificationResultPayload) (st : RedisState)
    (verification_id : String) (raw_body : List Nat) (x_webhook_signature : String)
    (now : Int) (payload : VerificationResultPayload) (user : String) (aid : Nat)
    (r : AttendanceRecordRedis)
    (hsig : hmacSig raw_body = x_webhook_signature)
    (hparse : parseBody raw_body = some payload)
    (hpassed : payload.verification_passed = true)
    (hres : get_user_and_attendance_for_verification st verification_id = some (user, aid))
    (hrec : get_attendance_record_by_id st aid user = some r)
    (hk1 : r.attendance_id = aid) (hk2 : r.student_number = user) :
    (update_attendance_from_webhook hmacSig parseBody st verification_id raw_body
        x_webhook_signature now).2 = WebhookResult.success ∧
    get_attendance_record_by_id (update_attendance_from_webhook hmacSig parseBody st
        verification_id raw_body x_webhook_signature now).1 aid user =
      some { r with is_attended := true, attendance_time := some now, fail_reason := none } ∧
    get_user_and_attendance_for_verification (update_attendance_from_webhook hmacSig parseBody
        st verification_id raw_body x_webhook_signature now).1 verification_id = none ∧
    (∀ (raw2 : List Nat) (sig2 : String) (payload2 : VerificationResultPayload) (now2 : Int),
      hmacSig raw2 = sig2 → parseBody raw2 = some payload2 →
      update_attendance_from_webhook hmacSig parseBody
          (update_attendance_from_webhook hmacSig parseBody st verification_id raw_body
            x_webhook_signature now).1 verification_id raw2 sig2 now2 =
        ((update_attendance_from_webhook hmacSig parseBody st verification_id raw_body
            x_webhook_signature now).1, WebhookResult.alreadyProcessed)) ∧
    webhookStatusCode WebhookResult.alreadyProcessed = 200 := by
  subst hk1
  subst hk2
  have hrun : update_attendance_from_webhook hmacSig parseBody st verification_id raw_body x_webhook_signature now = (delete_verification_mapping (update_attendance_record st ({ r with is_attended := true, attendance_time := some now, fail_reason := none })) verification_id, WebhookResult.success) := by
    simp only [update_attendance_from_webhook, hsig, hparse, hres, hrec, hpassed,
      ne_eq, not_true_eq_false, if_false, if_true]
  rw [hrun]
  have hrec2 : get_attendance_record_by_id (delete_verification_mapping (update_attendance_record st ({ r with is_attended := true, attendance_time := some now, fail_reason := none })) verification_id) r.attendance_id r.student_number = some { r with is_attended := true, attendance_time := some now, fail_reason := none } := by
    simp only [get_attendance_record_by_id, delete_verification_mapping,
      update_attendance_record, add_attendance_record]
    exact getA_setA_self _ _ _
  have hres2 : get_user_and_attendance_for_verification (delete_verification_mapping (update_attendance_record st ({ r with is_attended := true, attendance_time := some now, fail_reason := none })) verification_id) verification_id = none := by
    simp only [get_user_and_attendance_for_verification, delete_verification_mapping,
      update_attendance_record, add_attendance_record]
    exact getA_delA_self _ _
  refine ⟨rfl, hrec2, hres2, ?_, rfl⟩
  intro raw2 sig2 payload2 now2 hsig2 hparse2
  simp only [update_attendance_from_webhook, hsig2, hparse2, hres2,
    ne_eq, not_true_eq_false, if_false]

/-- C3 witness: the theorem applied to the concrete pending-record state with
an all-accepting signature function and a passing payload. -/
theorem c3_witness :
    get_user_and_attendance_for_verification exStatePending "vid-1" = some ("S200", 1) ∧
    (update_attendance_from_webhook (fun _ => "goodsig")
      (fun _ => some { verification_passed := true, reason := "match" }) exStatePending
      "vid-1" [7] "goodsig" 60).2 = WebhookResult.success :=
  ⟨by decide,
   (c3_webhook_pass_idempotent (fun _ => "goodsig")
     (fun _ => some { verification_passed := true, reason := "match" }) exStatePending
     "vid-1" [7] "goodsig" 60 { verification_passed := true, reason := "match" }
     "S200" 1 exPendingRecord rfl rfl rfl (by decide) (by decide) rfl rfl).1⟩

-- ===== C10: failed verdicts leave the attendance timestamp alone =====

/-- C10: applying a failed verdict to a live record — through the webhook's
verification_passed=false branch or through
TeacherService.fail_student_in_live_attendance — rewrites only the attended
flag and the failure reason: the stored record is exactly the old record with
those two fields replaced, so its attendance_time (and every other field) is
unchanged, and a previously accepted record keeps its old non-null timestamp
next to attended=false. -/
theorem c10_failed_verdict_preserves_attendance_time :
    (∀ (hmacSig : List Nat → String) (parseBody : List Nat → Option VerificationResultPayload)
      (st : RedisState) (verification_id : String) (raw_body : List Nat)
      (x_webhook_signature : String) (now : Int) (payload : VerificationResultPayload)
      (user : String) (aid : Nat) (r : AttendanceRecordRedis),
      hmacSig raw_body = x_webhook_signature →
      parseBody raw_body = some payload →
      payload.verification_passed = false →
      get_user_and_attendance_for_verification st verification_id = some (user, aid) →
      get_attendance_record_by_id st aid user = some r →
      r.attendance_id = aid → r.student_number = user →
      get_attendance_record_by_id (update_attendance_from_webhook hmacSig parseBody st
          verification_id raw_body x_webhook_signature now).1 aid user =
        some { r with is_attended := false, fail_reason := some ("FACE_VERIFICATION_FAILED: " ++ payload.reason) } ∧
      ({ r with is_attended := false, fail_reason := some ("FACE_VERIFICATION_FAILED: " ++ payload.reason) } : AttendanceRecordRedis).attendance_time = r.attendance_time) ∧
    (∀ (st : RedisState) (aid : Nat) (stu reason : String) (r : AttendanceRecordRedis),
      get_attendance_record_by_id st aid stu = some r →
      r.attendance_id = aid → r.student_number = stu →
      (fail_student_in_live_attendance st aid stu reason).2 = some ({ r with is_attended := false, fail_reason := some reason }) ∧
      get_attendance_record_by_id (fail_student_in_live_attendance st aid stu reason).1 aid stu = some ({ r with is_attended := false, fail_reason := some reason }) ∧
      ({ r with is_attended := false, fail_reason := some reason } : AttendanceRecordRedis).attendance_time = r.attendance_time) := by
  constructor
  · intro hmacSig parseBody st verification_id raw_body x_webhook_signature now payload
      user aid r hsig hparse hfailed hres hrec hk1 hk2
    subst hk1
    subst hk2
    have hrun : update_attendance_from_webhook hmacSig parseBody st verification_id raw_body x_webhook_signature now = (delete_verification_mapping (update_attendance_record st ({ r with is_attended := false, fail_reason := some ("FACE_VERIFICATION_FAILED: " ++ payload.reason) })) verification_id, WebhookResult.success) := by
      simp only [update_attendance_from_webhook, hsig, hparse, hres, hrec, hfailed,
        ne_eq, not_true_eq_false, if_false, Bool.false_eq_true]
    rw [hrun]
    refine ⟨?_, rfl⟩
    simp only [get_attendance_record_by_id, delete_verification_mapping,
      update_attendance_record, add_attendance_record]
    exact getA_setA_self _ _ _
  · intro st aid stu reason r hrec hk1 hk2
    subst hk1
    subst hk2
    have hrun : fail_student_in_live_attendance st r.attendance_id r.student_number reason = (update_attendance_record st ({ r with is_attended := false, fail_reason := some reason }), some ({ r with is_attended := false, fail_reason := some reason })) := by
      simp only [fail_student_in_live_attendance, hrec]
    rw [hrun]
    refine ⟨rfl, ?_, rfl⟩
    simp only [get_attendance_record_by_id, update_attendance_record, add_attendance_record]
    exact getA_setA_self _ _ _

/-- C10 witness: the teacher fail operation on the concrete accepted record
(timestamp 50) yields attended=false with the timestamp still 50. -/
theorem c10_witness :
    get_attendance_record_by_id exStateAttended 1 "S200" = some exAttendedRecord ∧
    (fail_student_in_live_attendance exStateAttended 1 "S200" "CHEATING").2 =
      some ({ exAttendedRecord with is_attended := false, fail_reason := some "CHEATING" }) ∧
    ({ exAttendedRecord with is_attended := false, fail_reason := some "CHEATING" } : AttendanceRecordRedis).attendance_time = some 50 :=
  ⟨by decide,
   (c10_failed_verdict_preserves_attendance_time.2 exStateAttended 1 "S200" "CHEATING"
     exAttendedRecord (by decide) rfl rfl).1,
   by decide⟩

-- ===== C9: finishing never deletes the live copy =====

/-- C9: finish_attendance issued by the owning teacher on an existing live
session does not delete the live copy: afterwards the blob is still stored
(and still SADDed in both indexes) and equals the old session with only
end_time replaced by the time of the call — id, teacher identifier and name,
lesson name, ip address, start time and security tier unchanged, which the
record-update form of the stored value expresses field by field. -/
theorem c9_finish_updates_end_time_only (st : RedisState) (teacher : User)
    (attendance_id : Nat) (now : Int) (s : AttendanceRedis)
    (hs : get_attendance_session st attendance_id = some s)
    (hkey : s.attendance_id = attendance_id)
    (hown : s.teacher_school_number = teacher.user_school_number) :
    (finish_attendance st teacher attendance_id now).2 = FinishOutcome.ok ∧
    get_attendance_session (finish_attendance st teacher attendance_id now).1 attendance_id =
      some { s with end_time := now } ∧
    attendance_id ∈ smembersIdx (s.lesson_name, s.teacher_full_name)
      (finish_attendance st teacher attendance_id now).1.indexName ∧
    attendance_id ∈ smembersIdx s.teacher_school_number
      (finish_attendance st teacher attendance_id now).1.indexTeacher := by
  subst hkey
  have hrun : finish_attendance st teacher s.attendance_id now = (save_attendance_session st { s with end_time := now }, FinishOutcome.ok) := by
    simp only [finish_attendance, hs, hown, if_true]
  rw [hrun]
  refine ⟨rfl, ?_, ?_, ?_⟩
  · simp only [get_attendance_session, save_attendance_session]
    exact getA_setA_self _ _ _
  · simp only [save_attendance_session]
    exact smembersIdx_saddIdx_self _ _ _
  · simp only [save_attendance_session]
    exact smembersIdx_saddIdx_self _ _ _

/-- C9 witness: the theorem applied to the concrete live session, finished by
its owner at time 42. -/
theorem c9_witness :
    get_attendance_session exState 1 = some exSession ∧
    get_attendance_session (finish_attendance exState exTeacher 1 42).1 1 =
      some { exSession with end_time := 42 } :=
  ⟨by decide,
   (c9_finish_updates_end_time_only exState exTeacher 1 42 exSession (by decide) rfl rfl).2.1⟩

-- ===== C7: no second attempt over an attended or pending record =====

/-- C7: an attendance attempt by a student whose existing record for the
session is already attended, or already pending
(fail_reason FACE_RECOGNITION_PENDING), is rejected with the corresponding
ServiceError and the state — in particular the existing record — is returned
completely unchanged, so the verification pipeline is not re-run. -/
theorem c7_reattempt_rejected_unchanged (st : RedisState) (student : User)
    (attendance_id : Nat) (student_ip : Option String)
    (normal_image_bytes : Option (List Nat)) (downloadOk submitOk : Bool)
    (newVid : String) (now : Int) (s : AttendanceRedis) (er : AttendanceRecordRedis)
    (hs : get_attendance_session st attendance_id = some s)
    (hlive : now < s.end_time)
    (her : get_attendance_record_by_id st attendance_id student.user_school_number = some er) :
    (er.is_attended = true →
      attend_to_attendance st student attendance_id student_ip normal_image_bytes downloadOk
        submitOk newVid now = (st, AttendOutcome.err "You have already successfully joined this session.")) ∧
    (er.is_attended = false → er.fail_reason = some "FACE_RECOGNITION_PENDING" →
      attend_to_attendance st student attendance_id student_ip normal_image_bytes downloadOk
        submitOk newVid now = (st, AttendOutcome.err "Your attendance is already pending verification. Please wait.")) := by
  have hnotend : ¬(s.end_time ≤ now) := not_le.mpr hlive
  constructor
  · intro hatt
    simp only [attend_to_attendance, hs, her, if_neg hnotend, hatt, if_true]
  · intro hnatt hpend
    simp only [attend_to_attendance, hs, her, if_neg hnotend, hnatt, hpend,
      Bool.false_eq_true, if_false, if_true]

/-- C7 witness: a re-attempt against the concrete state where the student is
already accepted, and against the one where the student is pending. -/
theorem c7_witness :
    attend_to_attendance exStateAttended exStudent 1 (some "192.168.1.1") none true true "v2" 60 =
      (exStateAttended, AttendOutcome.err "You have already successfully joined this session.") ∧
    attend_to_attendance exStatePending exStudent 1 (some "192.168.1.1") none true true "v2" 60 =
      (exStatePending, AttendOutcome.err "Your attendance is already pending verification. Please wait.") :=
  ⟨(c7_reattempt_rejected_unchanged exStateAttended exStudent 1 (some "192.168.1.1") none
      true true "v2" 60 exSession exAttendedRecord (by decide) (by decide) (by decide)).1 rfl,
   (c7_reattempt_rejected_unchanged exStatePending exStudent 1 (some "192.168.1.1") none
      true true "v2" 60 exSession exPendingRecord (by decide) (by decide) (by decide)).2 rfl rfl⟩

-- ===== C6: tier 3 without a photo never contacts the verifier =====

/-- C6: a tier-3 attendance attempt whose network check passes but which
carries no photo is finalized immediately with attended=false and
fail_reason FACE_VERIFICATION_REQUIRED_BUT_IMAGE_MISSING; only the record key
is written — the correlation map and the list of jobs POSTed to the external
verifier are exactly those of the pre-state, so the verifier is never
contacted. -/
theorem c6_tier3_no_photo_no_dispatch (st : RedisState) (student : User)
    (attendance_id : Nat) (ip newVid : String) (downloadOk submitOk : Bool) (now : Int)
    (s : AttendanceRedis)
    (hs : get_attendance_session st attendance_id = some s)
    (hkey : s.attendance_id = attendance_id)
    (h3 : s.security_option = 3)
    (hlive : now < s.end_time)
    (hnorec : get_attendance_record_by_id st attendance_id student.user_school_number = none)
    (hip : ip ≠ "")
    (hwifi : verify_wifi s.ip_address ip = true) :
    attend_to_attendance st student attendance_id (some ip) none downloadOk submitOk newVid now =
      attend_record_result st s student (some "FACE_VERIFICATION_REQUIRED_BUT_IMAGE_MISSING") now ∧
    (attend_record_result st s student (some "FACE_VERIFICATION_REQUIRED_BUT_IMAGE_MISSING") now).1.verifications = st.verifications ∧
    (attend_record_result st s student (some "FACE_VERIFICATION_REQUIRED_BUT_IMAGE_MISSING") now).1.dispatched = st.dispatched ∧
    (∃ rec, (attend_record_result st s student (some "FACE_VERIFICATION_REQUIRED_BUT_IMAGE_MISSING") now).2 = AttendOutcome.recorded rec ∧
      rec.is_attended = false ∧
      rec.fail_reason = some "FACE_VERIFICATION_REQUIRED_BUT_IMAGE_MISSING" ∧
      get_attendance_record_by_id (attend_record_result st s student (some "FACE_VERIFICATION_REQUIRED_BUT_IMAGE_MISSING") now).1 attendance_id student.user_school_number = some rec) := by
  subst hkey
  have hnotend : ¬(s.end_time ≤ now) := not_le.mpr hlive
  refine ⟨?_, rfl, rfl, ?_⟩
  · simp only [attend_to_attendance, hs, if_neg hnotend, hnorec, attend_security_checks,
      if_neg hip, hwifi, h3]
    simp
  · refine ⟨_, rfl, rfl, rfl, ?_⟩
    simp only [attend_record_result, get_attendance_record_by_id, add_attendance_record]
    exact getA_setA_self _ _ _

/-- C6 witness: the theorem applied to the concrete tier-3 state, a caller in
the session's /24 network and no photo. -/
theorem c6_witness :
    verify_wifi exSession3.ip_address "192.168.1.50" = true ∧
    (attend_to_attendance exState3 exStudent 1 (some "192.168.1.50") none true true "v9" 60).2 =
      (attend_record_result exState3 exSession3 exStudent (some "FACE_VERIFICATION_REQUIRED_BUT_IMAGE_MISSING") 60).2 :=
  ⟨by decide,
   congrArg Prod.snd
     ((c6_tier3_no_photo_no_dispatch exState3 exStudent 1 "192.168.1.50" "v9" true true 60
       exSession3 (by decide) rfl rfl (by decide) (by decide) (by decide) (by decide)).1)⟩

-- ===== C5: the network check characterization and tier-2/3 outcomes =====

/-- C5: for any caller address (nonempty, as supplied by the request layer)
the network check passes iff the two addresses match exactly as strings, or
both parse as IPv4 addresses in the same /24, or both parse as IPv6 addresses
in the same /64 — so every mixed-family or unparseable non-equal pair fails
closed; an absent session address also fails; on any session whose tier runs
the network check (security_option at least 2, so tiers 2 and 3 alike) a
failing check finalizes the record with attended=false and
fail_reason WIFI_FAILED, and on a tier-2 session a passing check finalizes
the record with attended=true. -/
theorem c5_wifi_same_network_characterization :
    (∀ (s c : String), c ≠ "" →
      (verify_wifi (some s) c = true ↔ (s = c ∨ sameV4Subnet24 s c ∨ sameV6Subnet64 s c))) ∧
    (∀ c : String, verify_wifi none c = false) ∧
    (∀ (st : RedisState) (student : User) (attendance_id : Nat) (ip newVid : String)
      (downloadOk submitOk : Bool) (now : Int) (s : AttendanceRedis),
      get_attendance_session st attendance_id = some s →
      2 ≤ s.security_option →
      now < s.end_time →
      get_attendance_record_by_id st attendance_id student.user_school_number = none →
      ((s.security_option = 2 → ip ≠ "" → verify_wifi s.ip_address ip = true →
        attend_to_attendance st student attendance_id (some ip) none downloadOk submitOk newVid now =
          attend_record_result st s student none now ∧
        (∃ rec, (attend_record_result st s student none now).2 = AttendOutcome.recorded rec ∧
          rec.is_attended = true ∧ rec.fail_reason = none)) ∧
       (verify_wifi s.ip_address ip = false →
        attend_to_attendance st student attendance_id (some ip) none downloadOk submitOk newVid now =
          attend_record_result st s student (some "WIFI_FAILED") now ∧
        (∃ rec, (attend_record_result st s student (some "WIFI_FAILED") now).2 = AttendOutcome.recorded rec ∧
          rec.is_attended = false ∧ rec.fail_reason = some "WIFI_FAILED")))) := by
  refine ⟨?_, fun c => rfl, ?_⟩
  · intro s c hc
    by_cases hse : s = ""
    · subst hse
      have hinv : ipParse "" = IPParse.invalid := by decide
      have hcs : ¬("" = c) := fun hh => hc hh.symm
      simp [verify_wifi, sameV4Subnet24, sameV6Subnet64, hinv, hcs]
    · by_cases hsc : s = c
      · subst hsc
        simp [verify_wifi, hse, hc]
      · simp only [verify_wifi, if_neg (by simp [hse, hc] : ¬(s = "" ∨ c = "")), if_neg hsc]
        cases h1 : ipParse s <;> cases h2 : ipParse c <;>
          simp [sameV4Subnet24, sameV6Subnet64, h1, h2, hsc, decide_eq_true_eq]
  · intro st student attendance_id ip newVid downloadOk submitOk now s hs h2ge hlive hnorec
    have hnotend : ¬(s.end_time ≤ now) := not_le.mpr hlive
    constructor
    · intro h2 hip hwifi
      refine ⟨?_, _, rfl, rfl, rfl⟩
      simp only [attend_to_attendance, hs, if_neg hnotend, hnorec, attend_security_checks,
        if_neg hip, hwifi, h2]
      simp
    · intro hwifi
      have hwifiOk : (if ip = "" then false else verify_wifi s.ip_address ip) = false := by
        by_cases hip : ip = "" <;> simp [hip, hwifi]
      refine ⟨?_, _, rfl, rfl, rfl⟩
      simp only [attend_to_attendance, hs, if_neg hnotend, hnorec, attend_security_checks,
        hwifiOk]
      simp [h2ge]

/-- C5 witness: the characterization applied to concrete dotted-quad
addresses in the same /24, the tier-2 pass branch applied to the concrete
live state, and the fail branch applied to the concrete tier-3 state with a
caller outside the session's /24. -/
theorem c5_witness :
    ("192.168.1.77" : String) ≠ "" ∧
    verify_wifi (some "192.168.1.1") "192.168.1.77" = true ∧
    (attend_to_attendance exState exStudent 1 (some "192.168.1.77") none true true "v5" 60).2 =
      (attend_record_result exState exSession exStudent none 60).2 ∧
    (attend_to_attendance exState3 exStudent 1 (some "10.0.0.1") none true true "v5" 60).2 =
      (attend_record_result exState3 exSession3 exStudent (some "WIFI_FAILED") 60).2 :=
  ⟨by decide,
   (c5_wifi_same_network_characterization.1 "192.168.1.1" "192.168.1.77" (by decide)).mpr
     (Or.inr (Or.inl ⟨3232235777, 3232235853, by decide, by decide, by decide⟩)),
   congrArg Prod.snd
     (((c5_wifi_same_network_characterization.2.2 exState exStudent 1 "192.168.1.77" "v5"
       true true 60 exSession (by decide) (by decide) (by decide) (by decide)).1 rfl (by decide)
       (by decide)).1),
   congrArg Prod.snd
     (((c5_wifi_same_network_characterization.2.2 exState3 exStudent 1 "10.0.0.1" "v5"
       true true 60 exSession3 (by decide) (by decide) (by decide) (by decide)).2
       (by decide)).1)⟩

-- ===== C8: one live session per teacher; freshness of the index lookup =====

theorem smembersIdx_sremIdx_eq {κ : Type} [DecidableEq κ] (k : κ) (id : Nat)
    (l : List (κ × List Nat)) :
    smembersIdx k (sremIdx k id l) = (smembersIdx k l).filter (fun x => x ≠ id) := by
  unfold sremIdx smembersIdx
  rw [getA_setA_self]
  rfl

/-- C8: the teacher-index lookup returns none when the resolved session's
end_time has passed; a teacher whose lookup still resolves a live session is
rejected by start_attendance with the state unchanged (no session written);
and after the teacher finishes that session (end_time set to the finish
time), or after the sweep migrates it, a new start by the same teacher
reaches the save path and succeeds with the fresh id. -/
theorem c8_one_live_session_per_teacher :
    (∀ (st : RedisState) (t : String) (now : Int) (sid : Nat) (rest : List Nat)
      (s : AttendanceRedis),
      smembersIdx t st.indexTeacher = sid :: rest →
      getA sid st.sessions = some s →
      s.end_time ≤ now →
      get_attendance_session_of_teacher st t now = none) ∧
    (∀ (st : RedisState) (teacher : User) (lesson : String) (ip : Option String)
      (t1 t2 : Int) (sec newId : Nat) (now : Int) (s0 : AttendanceRedis),
      get_attendance_session_of_teacher st teacher.user_school_number now = some s0 →
      start_attendance st teacher lesson ip t1 t2 sec newId now =
        (st, StartOutcome.err "You already have an active attendance session. Please end it first.")) ∧
    (∀ (st : RedisState) (teacher : User) (sid : Nat) (s : AttendanceRedis) (lesson : String)
      (ip : Option String) (t1 t2 tFinish now2 : Int) (sec newId : Nat),
      smembersIdx teacher.user_school_number st.indexTeacher = [sid] →
      get_attendance_session st sid = some s →
      s.attendance_id = sid →
      s.teacher_school_number = teacher.user_school_number →
      tFinish ≤ now2 →
      ∃ a, start_attendance (finish_attendance st teacher sid tFinish).1 teacher lesson ip t1 t2
          sec newId now2 =
        (save_attendance_session (finish_attendance st teacher sid tFinish).1 a, StartOutcome.ok a) ∧
        a.attendance_id = newId) ∧
    (∀ (st : RedisState) (db : DbState) (teacher : User) (sid : Nat) (s : AttendanceRedis)
      (lesson : String) (ip : Option String) (t1 t2 now now2 : Int) (sec newId : Nat),
      smembersIdx teacher.user_school_number st.indexTeacher = [sid] →
      get_attendance_session st sid = some s →
      s.attendance_id = sid →
      s.teacher_school_number = teacher.user_school_number →
      s.end_time < now →
      ∃ a, start_attendance (unified_persistence_step st db sid now).1 teacher lesson ip t1 t2
          sec newId now2 =
        (save_attendance_session (unified_persistence_step st db sid now).1 a, StartOutcome.ok a) ∧
        a.attendance_id = newId) := by
  refine ⟨?_, ?_, ?_, ?_⟩
  · intro st t now sid rest s hsm hget hend
    simp only [get_attendance_session_of_teacher, hsm, hget]
    rw [if_neg (not_lt.mpr hend)]
  · intro st teacher lesson ip t1 t2 sec newId now s0 hlook
    simp only [start_attendance, hlook]
  · intro st teacher sid s lesson ip t1 t2 tFinish now2 sec newId hsm hs hkey hown hfin
    subst hkey
    have hfin_run : finish_attendance st teacher s.attendance_id tFinish = (save_attendance_session st { s with end_time := tFinish }, FinishOutcome.ok) := by
      simp only [finish_attendance, hs, hown, if_true]
    have hsm0 : smembersIdx s.teacher_school_number st.indexTeacher = [s.attendance_id] := by
      rw [hown]; exact hsm
    have hsm1 : smembersIdx teacher.user_school_number (save_attendance_session st { s with end_time := tFinish }).indexTeacher = [s.attendance_id] := by
      rw [← hown]
      simp only [save_attendance_session, saddIdx, hsm0]
      rw [if_pos (by simp : s.attendance_id ∈ [s.attendance_id])]
      unfold smembersIdx
      rw [getA_setA_self]
      rfl
    have hget1 : getA s.attendance_id (save_attendance_session st { s with end_time := tFinish }).sessions = some { s with end_time := tFinish } := by
      simp only [save_attendance_session]
      exact getA_setA_self _ _ _
    have hnlt : ¬(now2 < ({ s with end_time := tFinish } : AttendanceRedis).end_time) :=
      not_lt.mpr hfin
    have hnoneS : get_attendance_session_of_teacher (save_attendance_session st { s with end_time := tFinish }) teacher.user_school_number now2 = none := by
      simp only [get_attendance_session_of_teacher, hsm1, hget1]
      rw [if_neg hnlt]
    have hnone1 : get_attendance_session_of_teacher (finish_attendance st teacher s.attendance_id tFinish).1 teacher.user_school_number now2 = none := by
      rw [hfin_run]
      exact hnoneS
    refine ⟨{ attendance_id := newId, teacher_school_number := teacher.user_school_number, teacher_full_name := teacher.user_full_name, lesson_name := lesson, ip_address := ip, start_time := t1, end_time := t2, security_option := sec, is_deleted := false, deletion_reason := none, deletion_time := none }, ?_, rfl⟩
    simp only [start_attendance, hnone1]
  · intro st db teacher sid s lesson ip t1 t2 now now2 sec newId hsm hs hkey hown hexp
    subst hkey
    have hsm0 : smembersIdx s.teacher_school_number st.indexTeacher = [s.attendance_id] := by
      rw [hown]; exact hsm
    have hii : (unified_persistence_step st db s.attendance_id now).1.indexTeacher = sremIdx s.teacher_school_number s.attendance_id st.indexTeacher := by
      simp only [unified_persistence_step, hs]
      rw [if_neg (not_le.mpr hexp)]
      simp only [delete_attendance_session]
    have hsm2 : smembersIdx teacher.user_school_number (unified_persistence_step st db s.attendance_id now).1.indexTeacher = [] := by
      rw [hii, ← hown, smembersIdx_sremIdx_eq, hsm0]
      simp
    have hnone : get_attendance_session_of_teacher (unified_persistence_step st db s.attendance_id now).1 teacher.user_school_number now2 = none := by
      simp only [get_attendance_session_of_teacher, hsm2]
    refine ⟨{ attendance_id := newId, teacher_school_number := teacher.user_school_number, teacher_full_name := teacher.user_full_name, lesson_name := lesson, ip_address := ip, start_time := t1, end_time := t2, security_option := sec, is_deleted := false, deletion_reason := none, deletion_time := none }, ?_, rfl⟩
    simp only [start_attendance, hnone]

/-- C8 witness: the freshness lookup, the live rejection, and the
finish-then-start success, each at the concrete one-session state. -/
theorem c8_witness :
    get_attendance_session_of_teacher exState "T100" 200 = none ∧
    start_attendance exState exTeacher "Chem" none 0 100 1 2 50 =
      (exState, StartOutcome.err "You already have an active attendance session. Please end it first.") ∧
    (∃ a, start_attendance (finish_attendance exState exTeacher 1 60).1 exTeacher "Chem" none
        60 160 1 2 70 =
      (save_attendance_session (finish_attendance exState exTeacher 1 60).1 a, StartOutcome.ok a) ∧
      a.attendance_id = 2) :=
  ⟨c8_one_live_session_per_teacher.1 exState "T100" 200 1 [] exSession (by decide) (by decide)
     (by decide),
   c8_one_live_session_per_teacher.2.1 exState exTeacher "Chem" none 0 100 1 2 50 exSession
     (by decide),
   c8_one_live_session_per_teacher.2.2.1 exState exTeacher 1 exSession "Chem" none 60 160 60 70
     1 2 (by decide) (by decide) rfl rfl (by decide)⟩

-- ===== C2: the sweep migrates an expired session exactly once =====

theorem getA_append_of_none {α β : Type} [DecidableEq α] {k : α} {l1 l2 : List (α × β)}
    (h : getA k l1 = none) : getA k (l1 ++ l2) = getA k l2 := by
  induction l1 with
  | nil => rfl
  | cons hd t ih =>
    obtain ⟨k2, v2⟩ := hd
    by_cases hk : k2 = k
    · simp [getA, hk] at h
    · simp only [getA, if_neg hk] at h
      simp only [List.cons_append, getA, if_neg hk]
      exact ih h

theorem getA_foldl_delA {α β γ : Type} [DecidableEq α] (f : γ → α) (xs : List γ)
    (l : List (α × β)) (k : α) :
    getA k (xs.foldl (fun acc x => delA (f x) acc) l) =
      if ∃ x ∈ xs, f x = k then none else getA k l := by
  induction xs generalizing l with
  | nil => simp
  | cons x xs ih =>
    rw [List.foldl_cons, ih]
    by_cases hx : f x = k
    · by_cases hex : ∃ y ∈ xs, f y = k
      · rw [if_pos hex, if_pos ⟨x, List.mem_cons_self x xs, hx⟩]
      · rw [if_neg hex, hx, getA_delA_self, if_pos ⟨x, List.mem_cons_self x xs, hx⟩]
    · have hiff : (∃ y ∈ x :: xs, f y = k) ↔ (∃ y ∈ xs, f y = k) := by
        constructor
        · rintro ⟨y, hy, hfy⟩
          rcases List.mem_cons.mp hy with h1 | h1
          · exact absurd (h1 ▸ hfy) hx
          · exact ⟨y, h1, hfy⟩
        · rintro ⟨y, hy, hfy⟩
          exact ⟨y, List.mem_cons_of_mem _ hy, hfy⟩
      rw [getA_delA_ne l (fun hh => hx hh.symm)]
      by_cases hex : ∃ y ∈ xs, f y = k
      · rw [if_pos hex, if_pos (hiff.mpr hex)]
      · rw [if_neg hex, if_neg (fun hh => hex (hiff.mp hh))]

theorem add_users_attendances (db : DbState) (us : List User) :
    (add_users db us).attendances = db.attendances := by
  induction us generalizing db with
  | nil => rfl
  | cons u us ih =>
    show (add_users (if (getA u.user_school_number db.users).isSome then db else { db with users := db.users ++ [(u.user_school_number, u)] }) us).attendances = db.attendances
    rw [ih]
    by_cases h : (getA u.user_school_number db.users).isSome <;> simp [h]

theorem add_users_attendanceRecords (db : DbState) (us : List User) :
    (add_users db us).attendanceRecords = db.attendanceRecords := by
  induction us generalizing db with
  | nil => rfl
  | cons u us ih =>
    show (add_users (if (getA u.user_school_number db.users).isSome then db else { db with users := db.users ++ [(u.user_school_number, u)] }) us).attendanceRecords = db.attendanceRecords
    rw [ih]
    by_cases h : (getA u.user_school_number db.users).isSome <;> simp [h]

theorem add_attendance_records_attendances (db : DbState) (rs : List AttendanceRecord) :
    (add_attendance_records db rs).attendances = db.attendances := by
  induction rs generalizing db with
  | nil => rfl
  | cons r rs ih =>
    show (add_attendance_records { db with attendanceRecords := setA (r.attendance_id, r.student_number) ({ r with is_deleted := false, deletion_reason := none, deletion_time := none }) db.attendanceRecords } rs).attendances = db.attendances
    rw [ih]

theorem add_attendances_attendanceRecords (db : DbState) (as0 : List Attendance) :
    (add_attendances db as0).attendanceRecords = db.attendanceRecords := by
  induction as0 generalizing db with
  | nil => rfl
  | cons a as0 ih =>
    show (add_attendances (if (getA a.attendance_id db.attendances).isSome then db else { db with attendances := db.attendances ++ [(a.attendance_id, a)] }) as0).attendanceRecords = db.attendanceRecords
    rw [ih]
    by_cases h : (getA a.attendance_id db.attendances).isSome <;> simp [h]

theorem add_attendances_single_getA (db : DbState) (a : Attendance) :
    getA a.attendance_id (add_attendances db [a]).attendances =
      some ((getA a.attendance_id db.attendances).getD a) := by
  show getA a.attendance_id (add_attendances (if (getA a.attendance_id db.attendances).isSome then db else { db with attendances := db.attendances ++ [(a.attendance_id, a)] }) []).attendances = _
  cases h : getA a.attendance_id db.attendances with
  | none =>
    simp only [h, Option.isSome_none, Bool.false_eq_true, if_false, Option.getD]
    show getA a.attendance_id (db.attendances ++ [(a.attendance_id, a)]) = some a
    rw [getA_append_of_none h]
    simp [getA]
  | some v =>
    simp only [h, Option.isSome_some, if_true, Option.getD]
    exact h

theorem add_attendance_records_getA_notmem (db : DbState) (rs : List AttendanceRecord)
    (k : Nat × String) (hk : k ∉ rs.map (fun r => (r.attendance_id, r.student_number))) :
    getA k (add_attendance_records db rs).attendanceRecords = getA k db.attendanceRecords := by
  induction rs generalizing db with
  | nil => rfl
  | cons r rs ih =>
    simp only [List.map_cons, List.mem_cons, not_or] at hk
    show getA k (add_attendance_records { db with attendanceRecords := setA (r.attendance_id, r.student_number) ({ r with is_deleted := false, deletion_reason := none, deletion_time := none }) db.attendanceRecords } rs).attendanceRecords = _
    rw [ih _ hk.2]
    exact getA_setA_ne _ _ hk.1

theorem add_attendance_records_getA_mem (db : DbState) (rs : List AttendanceRecord)
    (hnd : (rs.map (fun r => (r.attendance_id, r.student_number))).Nodup)
    {r : AttendanceRecord} (hr : r ∈ rs) :
    getA (r.attendance_id, r.student_number) (add_attendance_records db rs).attendanceRecords =
      some { r with is_deleted := false, deletion_reason := none, deletion_time := none } := by
  induction rs generalizing db with
  | nil => cases hr
  | cons x xs ih =>
    rw [List.map_cons, List.nodup_cons] at hnd
    rcases List.mem_cons.mp hr with hrx | hrxs
    · subst hrx
      show getA (r.attendance_id, r.student_number) (add_attendance_records { db with attendanceRecords := setA (r.attendance_id, r.student_number) ({ r with is_deleted := false, deletion_reason := none, deletion_time := none }) db.attendanceRecords } xs).attendanceRecords = _
      rw [add_attendance_records_getA_notmem _ _ _ hnd.1]
      exact getA_setA_self _ _ _
    · show getA (r.attendance_id, r.student_number) (add_attendance_records { db with attendanceRecords := setA (x.attendance_id, x.student_number) ({ x with is_deleted := false, deletion_reason := none, deletion_time := none }) db.attendanceRecords } xs).attendanceRecords = _
      exact ih _ hnd.2 hrxs

/-- C2: one pass of the persistence sweep over the key of a live session whose
end_time is strictly in the past upserts the session row into the durable
store (inserting it verbatim when absent), upserts every live record of the
session verbatim, then removes the live blob, this session's entry in both
secondary indexes, and every live record key of the session; a session whose
end_time is not yet past (end_time at or after now) is left completely
untouched; and running the sweep again on the already-migrated id changes
nothing, because the live key is gone.  The well-formedness hypotheses say
the record store keys agree with the stored records and are duplicate-free,
which holds for every state the clients produce. -/
theorem unified_persistence_step_of_none (st : RedisState) (db : DbState)
    (attendance_id : Nat) (now : Int)
    (h : get_attendance_session st attendance_id = none) :
    unified_persistence_step st db attendance_id now = (st, db) := by
  simp only [unified_persistence_step, h]

theorem c2_sweep_migrates_expired_session (st : RedisState) (db : DbState)
    (attendance_id : Nat) (now now2 : Int) (s : AttendanceRedis)
    (hs : get_attendance_session st attendance_id = some s)
    (hkey : s.attendance_id = attendance_id)
    (hwf : ∀ p ∈ st.records, p.1 = (p.2.attendance_id, p.2.student_number))
    (hnodup : (st.records.map Prod.fst).Nodup) :
    (now ≤ s.end_time → unified_persistence_step st db attendance_id now = (st, db)) ∧
    (s.end_time < now →
      get_attendance_session (unified_persistence_step st db attendance_id now).1 attendance_id = none ∧
      attendance_id ∉ smembersIdx (s.lesson_name, s.teacher_full_name) (unified_persistence_step st db attendance_id now).1.indexName ∧
      attendance_id ∉ smembersIdx s.teacher_school_number (unified_persistence_step st db attendance_id now).1.indexTeacher ∧
      (∀ stu, get_attendance_record_by_id (unified_persistence_step st db attendance_id now).1 attendance_id stu = none) ∧
      (getA attendance_id (unified_persistence_step st db attendance_id now).2.attendances).isSome = true ∧
      (getA attendance_id db.attendances = none →
        getA attendance_id (unified_persistence_step st db attendance_id now).2.attendances = some (attendance_to_db s)) ∧
      (∀ r ∈ get_attendance_records st attendance_id,
        getA (attendance_id, r.student_number) (unified_persistence_step st db attendance_id now).2.attendanceRecords = some (record_to_db r)) ∧
      unified_persistence_step (unified_persistence_step st db attendance_id now).1 (unified_persistence_step st db attendance_id now).2 attendance_id now2 = ((unified_persistence_step st db attendance_id now).1, (unified_persistence_step st db attendance_id now).2)) := by
  subst hkey
  constructor
  · intro hle
    simp only [unified_persistence_step, hs]
    rw [if_pos hle]
  · intro hexp
    have hne : ¬(now ≤ s.end_time) := not_le.mpr hexp
    have hSess : (unified_persistence_step st db s.attendance_id now).1.sessions = delA s.attendance_id st.sessions := by
      simp only [unified_persistence_step, hs]
      rw [if_neg hne]
      simp only [delete_attendance_session]
    have hIdxN : (unified_persistence_step st db s.attendance_id now).1.indexName = sremIdx (s.lesson_name, s.teacher_full_name) s.attendance_id st.indexName := by
      simp only [unified_persistence_step, hs]
      rw [if_neg hne]
      simp only [delete_attendance_session]
    have hIdxT : (unified_persistence_step st db s.attendance_id now).1.indexTeacher = sremIdx s.teacher_school_number s.attendance_id st.indexTeacher := by
      simp only [unified_persistence_step, hs]
      rw [if_neg hne]
      simp only [delete_attendance_session]
    have hRecsF : (unified_persistence_step st db s.attendance_id now).1.records = (get_attendance_records st s.attendance_id).foldl (fun l r => delA (s.attendance_id, r.student_number) l) st.records := by
      simp only [unified_persistence_step, hs]
      rw [if_neg hne]
      simp only [delete_attendance_session]
    have hDb : (unified_persistence_step st db s.attendance_id now).2 = add_attendance_records (add_attendances (add_users (add_users db [teacher_user_of s]) ((get_attendance_records st s.attendance_id).map student_user_of)) [attendance_to_db s]) ((get_attendance_records st s.attendance_id).map record_to_db) := by
      simp only [unified_persistence_step, hs]
      rw [if_neg hne]
    have hmemrec : ∀ {r : AttendanceRecordRedis}, r ∈ get_attendance_records st s.attendance_id → r.attendance_id = s.attendance_id := by
      intro r hr
      rcases List.mem_map.mp hr with ⟨p, hp, hpr⟩
      have hpf := List.mem_filter.mp hp
      have hkeyp := hwf p hpf.1
      have h11 : p.1.1 = s.attendance_id := by simpa using hpf.2
      calc r.attendance_id = p.2.attendance_id := by rw [hpr]
        _ = p.1.1 := by rw [hkeyp]
        _ = s.attendance_id := h11
    have hkeysEq : (get_attendance_records st s.attendance_id).map (fun r => (r.attendance_id, r.student_number)) = (st.records.filter (fun p => p.1.1 = s.attendance_id)).map Prod.fst := by
      unfold get_attendance_records
      rw [List.map_map]
      refine List.map_congr_left ?_
      intro p hp
      have hkeyp := hwf p (List.mem_filter.mp hp).1
      simp only [Function.comp]
      exact hkeyp.symm
    have hndk : ((get_attendance_records st s.attendance_id).map (fun r => (r.attendance_id, r.student_number))).Nodup := by
      rw [hkeysEq]
      exact hnodup.sublist ((List.filter_sublist _).map Prod.fst)
    refine ⟨?_, ?_, ?_, ?_, ?_, ?_, ?_, ?_⟩
    · simp only [get_attendance_session, hSess]
      exact getA_delA_self _ _
    · rw [hIdxN]
      exact smembersIdx_sremIdx_self _ _ _
    · rw [hIdxT]
      exact smembersIdx_sremIdx_self _ _ _
    · intro stu
      simp only [get_attendance_record_by_id, hRecsF]
      rw [getA_foldl_delA]
      by_cases hex : ∃ r ∈ get_attendance_records st s.attendance_id, (s.attendance_id, r.student_number) = (s.attendance_id, stu)
      · rw [if_pos hex]
      · rw [if_neg hex]
        cases hgv : getA (s.attendance_id, stu) st.records with
        | none => rfl
        | some v =>
          exfalso
          have hmem := getA_some_mem hgv
          have hkeyp := hwf _ hmem
          have hva : v.attendance_id = s.attendance_id := by
            have h2 := congrArg Prod.fst hkeyp
            simpa using h2.symm
          have hvs : v.student_number = stu := by
            have h2 := congrArg Prod.snd hkeyp
            simpa using h2.symm
          apply hex
          refine ⟨v, ?_, by rw [hvs]⟩
          unfold get_attendance_records
          exact List.mem_map.mpr ⟨((s.attendance_id, stu), v), List.mem_filter.mpr ⟨hmem, by simp⟩, rfl⟩
    · rw [hDb, add_attendance_records_attendances]
      have h5 : getA s.attendance_id (add_attendances (add_users (add_users db [teacher_user_of s]) ((get_attendance_records st s.attendance_id).map student_user_of)) [attendance_to_db s]).attendances = some ((getA s.attendance_id (add_users (add_users db [teacher_user_of s]) ((get_attendance_records st s.attendance_id).map student_user_of)).attendances).getD (attendance_to_db s)) := add_attendances_single_getA _ (attendance_to_db s)
      rw [h5]
      rfl
    · intro hnonedb
      rw [hDb, add_attendance_records_attendances]
      have h5 : getA s.attendance_id (add_attendances (add_users (add_users db [teacher_user_of s]) ((get_attendance_records st s.attendance_id).map student_user_of)) [attendance_to_db s]).attendances = some ((getA s.attendance_id (add_users (add_users db [teacher_user_of s]) ((get_attendance_records st s.attendance_id).map student_user_of)).attendances).getD (attendance_to_db s)) := add_attendances_single_getA _ (attendance_to_db s)
      rw [h5, add_users_attendances, add_users_attendances, hnonedb]
      rfl
    · intro r hr
      rw [hDb]
      have hndk2 : (((get_attendance_records st s.attendance_id).map record_to_db).map (fun x => (x.attendance_id, x.student_number))).Nodup := by
        rw [List.map_map]
        exact hndk
      have h7 := add_attendance_records_getA_mem (add_attendances (add_users (add_users db [teacher_user_of s]) ((get_attendance_records st s.attendance_id).map student_user_of)) [attendance_to_db s]) ((get_attendance_records st s.attendance_id).map record_to_db) hndk2 (List.mem_map_of_mem record_to_db hr)
      have hra : r.attendance_id = s.attendance_id := hmemrec hr
      have hkeyeq : (s.attendance_id, r.student_number) = (r.attendance_id, r.student_number) := by
        rw [hra]
      rw [hkeyeq]
      exact h7
    · have hgone : get_attendance_session (unified_persistence_step st db s.attendance_id now).1 s.attendance_id = none := by
        simp only [get_attendance_session, hSess]
        exact getA_delA_self _ _
      exact unified_persistence_step_of_none _ _ _ _ hgone

/-- C2 witness: the sweep theorem applied to the concrete expired state (one
session, one record) at time 200: the blob is gone and the record row is in
the durable store verbatim. -/
theorem c2_witness :
    exSession.end_time < 200 ∧
    get_attendance_session (unified_persistence_step exStateAttended exDb 1 200).1 1 = none ∧
    getA (1, "S200") (unified_persistence_step exStateAttended exDb 1 200).2.attendanceRecords =
      some (record_to_db exAttendedRecord) :=
  ⟨by decide,
   ((c2_sweep_migrates_expired_session exStateAttended exDb 1 200 0 exSession (by decide) rfl
      (by decide) (by decide)).2 (by decide)).1,
   ((c2_sweep_migrates_expired_session exStateAttended exDb 1 200 0 exSession (by decide) rfl
      (by decide) (by decide)).2 (by decide)).2.2.2.2.2.2.1 exAttendedRecord (by decide)⟩
